import Mathlib

/-!
Verification development for the satellite-image QA repository.

The repository has two services:

* an inspection service (`satellite_qa_agent/satellite_qa_agent.py` and
  `satellite_qa_agent/main.py`): a FastAPI app whose `/analyze` endpoint
  forwards a GCS image URI to a hosted vision-language model with a fixed
  instruction and a JSON response schema, and relays the parsed verdict;
* an upload front-end (`satellite_qa_agent_app/main.py`): a Flask app whose
  `/upload` handler stores each uploaded file in object storage and calls the
  inspection service once per file, aggregating results for rendering.

The embedding below models the data (JSON values, the two pydantic models),
the request-building code of the agent, the `/analyze` endpoint dispatch, and
the upload handler.  External effects (the file system, the model call, the
storage writes and the downstream HTTP POST) are passed in as explicit
oracles, and the outbound calls each function makes are recorded in a trace,
so that ordering and abort behaviour can be stated.  JSON numbers are
embedded as exact rationals; Python string formatting such as
`json.dumps(..., indent=2)` is abstracted by carrying the JSON value itself.
-/

/-- A JSON value.  Objects are association lists in textual order. -/
inductive Json where
  | jnull : Json
  | jbool : Bool → Json
  | jnum : ℚ → Json
  | jstr : String → Json
  | jarr : List Json → Json
  | jobj : List (String × Json) → Json

instance : Inhabited Json := ⟨Json.jnull⟩

/-- First value bound to `k` in an object field list (Python dict lookup). -/
def lookupField (fields : List (String × Json)) (k : String) : Option Json :=
  match fields with
  | [] => none
  | (k', v) :: rest => if k' = k then some v else lookupField rest k

/-- The top-level keys of a JSON object, in order (empty for non-objects). -/
def Json.keys : Json → List String
  | Json.jobj fields => fields.map Prod.fst
  | _ => []

/-- Pydantic model `IssueAssessment`: assessment for one category of issue.
The source declares `detected : bool`, `confidence : float`, `reason : str`,
each with only a `description` on its `Field` — no range or length validator. -/
structure IssueAssessment where
  detected : Bool
  confidence : ℚ
  reason : String
deriving DecidableEq, Repr, Inhabited

/-- Pydantic model `SatelliteAnalysis`: the four fixed assessment categories. -/
structure SatelliteAnalysis where
  has_clouds : IssueAssessment
  has_snow : IssueAssessment
  has_color_issues : IssueAssessment
  has_other_issues : IssueAssessment
deriving DecidableEq, Repr, Inhabited

/-- Pydantic validation of one `IssueAssessment` from a JSON value: each of
the three declared fields must be present with a value of its declared type;
extra keys are ignored (pydantic default `extra` behaviour); nothing else is
checked — in particular no range check on `confidence` and no non-emptiness
check on `reason`, since the source attaches no such validator. -/
def parseIssueAssessment (j : Json) : Option IssueAssessment :=
  match j with
  | Json.jobj fields =>
    match lookupField fields "detected", lookupField fields "confidence",
          lookupField fields "reason" with
    | some (Json.jbool b), some (Json.jnum c), some (Json.jstr r) =>
      some { detected := b, confidence := c, reason := r }
    | _, _, _ => none
  | _ => none

/-- Pydantic validation of a `SatelliteAnalysis` from a JSON value: the four
declared keys must each validate as an `IssueAssessment`; extra keys are
ignored. -/
def parseSatelliteAnalysis (j : Json) : Option SatelliteAnalysis :=
  match j with
  | Json.jobj fields =>
    match (lookupField fields "has_clouds").bind parseIssueAssessment,
          (lookupField fields "has_snow").bind parseIssueAssessment,
          (lookupField fields "has_color_issues").bind parseIssueAssessment,
          (lookupField fields "has_other_issues").bind parseIssueAssessment with
    | some a, some b, some c, some d =>
      some { has_clouds := a, has_snow := b, has_color_issues := c,
             has_other_issues := d }
    | _, _, _, _ => none
  | _ => none

/-- Pydantic serialization of an `IssueAssessment`: the three declared fields
in declaration order, nothing else. -/
def dumpIssueAssessment (a : IssueAssessment) : Json :=
  Json.jobj [("detected", Json.jbool a.detected),
             ("confidence", Json.jnum a.confidence),
             ("reason", Json.jstr a.reason)]

/-- Pydantic serialization of a `SatelliteAnalysis`: the four declared keys in
declaration order, nothing else. -/
def dumpSatelliteAnalysis (s : SatelliteAnalysis) : Json :=
  Json.jobj [("has_clouds", dumpIssueAssessment s.has_clouds),
             ("has_snow", dumpIssueAssessment s.has_snow),
             ("has_color_issues", dumpIssueAssessment s.has_color_issues),
             ("has_other_issues", dumpIssueAssessment s.has_other_issues)]

/-- `IssueAssessment.model_json_schema()` as pydantic produces it. -/
def issueAssessmentJsonSchema : Json :=
  Json.jobj
    [("description", Json.jstr "Assessment for a specific category of issue."),
     ("properties", Json.jobj
       [("detected", Json.jobj
          [("description", Json.jstr "Whether this specific issue is present."),
           ("title", Json.jstr "Detected"),
           ("type", Json.jstr "boolean")]),
        ("confidence", Json.jobj
          [("description", Json.jstr "Confidence score between 0.0 and 1.0."),
           ("title", Json.jstr "Confidence"),
           ("type", Json.jstr "number")]),
        ("reason", Json.jobj
          [("description",
            Json.jstr "A concise explanation of the visual evidence found."),
           ("title", Json.jstr "Reason"),
           ("type", Json.jstr "string")])]),
     ("required", Json.jarr [Json.jstr "detected", Json.jstr "confidence",
                             Json.jstr "reason"]),
     ("title", Json.jstr "IssueAssessment"),
     ("type", Json.jstr "object")]

/-- `SatelliteAnalysis.model_json_schema()` as pydantic produces it; this is
the value the agent passes as `response_schema` in the generation config. -/
def satelliteAnalysisJsonSchema : Json :=
  Json.jobj
    [("$defs", Json.jobj [("IssueAssessment", issueAssessmentJsonSchema)]),
     ("description",
      Json.jstr "The master JSON structure for the satellite image analysis."),
     ("properties", Json.jobj
       [("has_clouds", Json.jobj [("$ref", Json.jstr "#/$defs/IssueAssessment")]),
        ("has_snow", Json.jobj [("$ref", Json.jstr "#/$defs/IssueAssessment")]),
        ("has_color_issues",
         Json.jobj [("$ref", Json.jstr "#/$defs/IssueAssessment")]),
        ("has_other_issues",
         Json.jobj [("$ref", Json.jstr "#/$defs/IssueAssessment")])]),
     ("required", Json.jarr [Json.jstr "has_clouds", Json.jstr "has_snow",
                             Json.jstr "has_color_issues",
                             Json.jstr "has_other_issues"]),
     ("title", Json.jstr "SatelliteAnalysis"),
     ("type", Json.jstr "object")]

/-- A `vertexai.generative_models.Part`: either built from a GCS URI
(`Part.from_uri`) or from raw bytes (`Part.from_data`). -/
inductive GenPart where
  | from_uri (uri : String) (mime_type : String)
  | from_data (data : List Nat) (mime_type : String)
deriving DecidableEq, Repr

/-- One element of the `contents` list passed to `generate_content`: either a
plain text prompt or an image part. -/
inductive GenContent where
  | text (s : String)
  | part (p : GenPart)
deriving DecidableEq, Repr

/-- The outbound request `_generate` assembles for
`self.model.generate_content(...)`: the contents list, the generation config,
and the safety settings (category, threshold pairs). -/
structure GenRequest where
  contents : List GenContent
  response_mime_type : String
  response_schema : Json
  safety_settings : List (String × String)

/-- The system prompt `SatelliteInspector.system_instruction`, verbatim from
the source (a Python triple-quoted string; leading/trailing newlines and the
8-space indentation of the source are preserved). -/
def system_instruction : String :=
  "\n        You are an expert Remote Sensing Analyst AI. \n        Your job is to analyze satellite imagery (optical/RGB) and detect quality issues.\n        \n        Definitions for your analysis:\n        1. CLOUDS: Look for white, puffy, opaque textures that obscure the ground. Distinguish from smoke or haze if possible.\n        2. SNOW: Look for white, smooth textures on terrain, specifically on mountain peaks or covering large flat areas. Distinguish from clouds by looking for ground features (valleys, rivers) cut into the white.\n        3. COLOR ISSUES: Look for unnatural color casts (e.g., whole image is purple/green), oversaturation, banding (colored stripes), or severe atmospheric haze that washes out color.\n        4. OTHER ISSUES: Look for missing data (black pixels/voids), severe blurriness, stitching artifacts, or digital noise.\n        \n        Provide a confidence score (0.0 to 1.0) and specific visual reasoning for every assessment.\n        "

/-- `SatelliteInspector._generate`: builds the generation request for a given
image part.  The generation config forces JSON output with
`SatelliteAnalysis.model_json_schema()` as the response schema, and one
safety setting is attached. -/
def generateRequest (image_part : GenPart) : GenRequest :=
  { contents := [GenContent.text system_instruction,
                 GenContent.part image_part,
                 GenContent.text "Analyze this satellite image for issues."],
    response_mime_type := "application/json",
    response_schema := satelliteAnalysisJsonSchema,
    safety_settings := [("HARM_CATEGORY_DANGEROUS_CONTENT", "BLOCK_ONLY_HIGH")] }

/-- An observable outbound effect of the agent: reading a local file, or
issuing one `generate_content` call with the recorded request. -/
inductive AgentEvent where
  | readFile (path : String)
  | generateCall (req : GenRequest)

/-- A Python exception as the agent can raise it. -/
inductive PyError where
  | fileNotFoundError (msg : String)
  | exception (msg : String)
deriving DecidableEq, Repr

/-- The file system as the agent observes it: `os.path.exists` and the bytes
`open(path, "rb").read()` returns. -/
structure FileSystem where
  pathExists : String → Bool
  readBytes : String → List Nat

/-- `SatelliteInspector.analyze_from_uri`: builds a URI part (default mime
type `image/jpeg` is supplied by the caller in this embedding) and runs
`_generate`; returns the model response text and the trace of effects.  The
model is the oracle mapping each request to its `response.text`. -/
def analyze_from_uri (oracle : GenRequest → String) (gcs_uri : String)
    (mime_type : String) : String × List AgentEvent :=
  let image_part := GenPart.from_uri gcs_uri mime_type
  let req := generateRequest image_part
  (oracle req, [AgentEvent.generateCall req])

/-- `SatelliteInspector.analyze_image`: raises `FileNotFoundError` when the
path does not exist, otherwise reads the bytes, builds a data part with mime
type `image/jpeg`, and runs `_generate`.  Returns the result (or error) and
the trace of effects in order. -/
def analyze_image (fs : FileSystem) (oracle : GenRequest → String)
    (image_path : String) : Except PyError String × List AgentEvent :=
  if fs.pathExists image_path = false then
    (Except.error (PyError.fileNotFoundError ("Image not found at " ++ image_path)),
     [])
  else
    let image_bytes := fs.readBytes image_path
    let image_part := GenPart.from_data image_bytes "image/jpeg"
    let req := generateRequest image_part
    (Except.ok (oracle req),
     [AgentEvent.readFile image_path, AgentEvent.generateCall req])

/-- Outcome of `agent.analyze_from_uri(request.gcs_uri)` followed by
`json.loads` on its text, as the `/analyze` endpoint observes it: either the
call raises (any exception, message `str(e)`), or it returns text whose
`json.loads` either raises (message `str(e)`) or yields a JSON value. -/
inductive AgentOutcome where
  | raises (msg : String)
  | returnsText (parsed : Except String Json)

/-- A response of the FastAPI `/analyze` endpoint: a validated
`SatelliteAnalysis` (serialized by FastAPI against `response_model`), or an
HTTP error with a status code and detail text. -/
inductive EndpointResponse where
  | success (a : SatelliteAnalysis)
  | httpError (status : Nat) (detail : String)
deriving DecidableEq, Repr

/-- `analyze_endpoint` in `satellite_qa_agent/main.py`: calls the agent,
parses the returned text with `json.loads`, and returns the data; any
exception inside the `try` block is caught and re-raised as
`HTTPException(status_code=500, detail=str(e))`.  The returned dictionary is
then validated by FastAPI against `response_model=SatelliteAnalysis`; a value
that does not validate makes FastAPI answer with a 500 response
(`ResponseValidationError`). -/
def analyze_endpoint (outcome : AgentOutcome) : EndpointResponse :=
  match outcome with
  | AgentOutcome.raises msg => EndpointResponse.httpError 500 msg
  | AgentOutcome.returnsText (Except.error msg) => EndpointResponse.httpError 500 msg
  | AgentOutcome.returnsText (Except.ok j) =>
    match parseSatelliteAnalysis j with
    | some a => EndpointResponse.success a
    | none => EndpointResponse.httpError 500 "ResponseValidationError"

/-- The JSON body of an endpoint response: the pydantic serialization of the
validated model on success, FastAPI's error object otherwise. -/
def responseBody (r : EndpointResponse) : Json :=
  match r with
  | EndpointResponse.success a => dumpSatelliteAnalysis a
  | EndpointResponse.httpError _ msg => Json.jobj [("detail", Json.jstr msg)]

/-- An incoming HTTP GET request as FastAPI routes it: only the path selects
the handler; headers and body are never passed to `read_root` or
`health_check`. -/
structure HttpGet where
  path : String
  headers : List (String × String)
  body : String

/-- The payload of `read_root` (`GET /`). -/
def read_root : Json :=
  Json.jobj [("message", Json.jstr "Satellite Inspector Tool is running."),
             ("documentation", Json.jstr "/docs"),
             ("openapi_schema", Json.jstr "/openapi.json")]

/-- The payload of `health_check` (`GET /health`). -/
def health_check : Json :=
  Json.jobj [("status", Json.jstr "ok")]

/-- GET routing of the FastAPI app: `/` and `/health` have handlers that take
no request data, so the response depends only on the path. -/
def handle_get (r : HttpGet) : Option Json :=
  if r.path = "/" then some read_root
  else if r.path = "/health" then some health_check
  else none

/-- One file of the multipart form field `files`, as Flask delivers it:
`filename`, stream bytes, and declared content type. -/
structure UploadedFile where
  filename : String
  stream : List Nat
  content_type : String
deriving DecidableEq, Repr, Inhabited

/-- The GCS bucket name hardcoded in `satellite_qa_agent_app/main.py`. -/
def GCS_BUCKET_NAME : String := "your-unique-bucket-name"

/-- `blob.public_url` for an object name in the hardcoded bucket. -/
def public_url (blobName : String) : String :=
  "https://storage.googleapis.com/" ++ GCS_BUCKET_NAME ++ "/" ++ blobName

/-- Outcome of the per-file work of the upload loop (storage write,
`make_public`, the POST to the inspection service, and `response.json()`):
either it all succeeds and `response.json()` yields a JSON value, or one of
those steps raises with a message. -/
inductive FileOutcome where
  | ok (analysisJson : Json)
  | fails (msg : String)

/-- One rendered result entry of the upload page: the public image URL and
the analysis JSON (the source stores `json.dumps(response.json(), indent=2)`;
the embedding carries the JSON value, abstracting the text formatting). -/
structure UploadResult where
  image_url : String
  analysis : Json

instance : Inhabited UploadResult := ⟨{ image_url := "", analysis := Json.jnull }⟩

/-- A response of the Flask `/upload` handler: the rendered results page, the
explicit `("No files selected", 400)` return, or the 500 page Flask produces
when an exception escapes the handler. -/
inductive UploadResponse where
  | html (results : List UploadResult)
  | clientError (body : String) (status : Nat)
  | internalError (msg : String)

/-- The `for file in uploaded_files:` loop of `upload`, starting at file
index `i`.  `world i` is the outcome of the per-file effects for the `i`-th
file and `uuids i` the `uuid.uuid4()` drawn for it.  Each iteration stores
the blob under `uploads/<uuid>-<filename>`, makes it public, POSTs the
`gs://` URI to the inspection service, and appends the result entry; an
exception propagates immediately, abandoning the loop and the collected
entries. -/
def uploadLoop (world : Nat → FileOutcome) (uuids : Nat → String) :
    Nat → List UploadedFile → Except String (List UploadResult)
  | _, [] => Except.ok []
  | i, file :: rest =>
    match world i with
    | FileOutcome.fails msg => Except.error msg
    | FileOutcome.ok j =>
      let blobName := "uploads/" ++ uuids i ++ "-" ++ file.filename
      let entry : UploadResult := { image_url := public_url blobName, analysis := j }
      match uploadLoop world uuids (i + 1) rest with
      | Except.error msg => Except.error msg
      | Except.ok results => Except.ok (entry :: results)

/-- The `/upload` handler of `satellite_qa_agent_app/main.py`: when the file
list is empty or the first file has an empty filename, it returns
`("No files selected", 400)`; otherwise it runs the sequential loop over all
files and renders the collected results, while an escaping exception becomes
Flask's 500 response. -/
def upload (world : Nat → FileOutcome) (uuids : Nat → String)
    (uploaded_files : List UploadedFile) : UploadResponse :=
  match uploaded_files with
  | [] => UploadResponse.clientError "No files selected" 400
  | file0 :: _ =>
    if file0.filename = "" then UploadResponse.clientError "No files selected" 400
    else
      match uploadLoop world uuids 0 uploaded_files with
      | Except.error msg => UploadResponse.internalError msg
      | Except.ok results => UploadResponse.html results

/-- A sample assessment used as concrete input in witnesses. -/
def sampleAssessment : IssueAssessment :=
  { detected := false, confidence := 9/10, reason := "clear sky" }

/-- A sample analysis used as concrete input in witnesses. -/
def sampleAnalysis : SatelliteAnalysis :=
  { has_clouds := sampleAssessment, has_snow := sampleAssessment,
    has_color_issues := sampleAssessment, has_other_issues := sampleAssessment }

/-- Parsing the pydantic serialization of any analysis recovers the value. -/
theorem parse_dump_roundtrip (a : SatelliteAnalysis) :
    parseSatelliteAnalysis (dumpSatelliteAnalysis a) = some a := by
  cases a with
  | mk c s col o => cases c; cases s; cases col; cases o; rfl

/-- C8: every GET request whose path is `/health` is answered by the static
payload with status ok, independent of headers, body, or any other request:
the handler takes no request data, so any two such requests get the same
response. -/
theorem health_check_static (r : HttpGet) (h : r.path = "/health") :
    handle_get r = some (Json.jobj [("status", Json.jstr "ok")]) ∧
    ∀ r' : HttpGet, r'.path = "/health" → handle_get r' = handle_get r := by
  constructor
  · have hval : handle_get r = some health_check := by
      unfold handle_get
      rw [h, if_neg (by decide), if_pos rfl]
    rw [hval]
    rfl
  · intro r' h'
    unfold handle_get
    rw [h, h']

/-- Witness for C8 at a concrete request with nontrivial headers and body. -/
theorem health_check_static_witness :
    handle_get { path := "/health", headers := [("accept", "text/html")],
                 body := "ignored" } =
      some (Json.jobj [("status", Json.jstr "ok")]) :=
  (health_check_static
    { path := "/health", headers := [("accept", "text/html")], body := "ignored" }
    rfl).1

/-- C9: when the path does not exist, `analyze_image` returns the
`FileNotFoundError` (with the exact message of the source) and its effect
trace is empty — no file read and no outbound model call happened, so all
state is unchanged. -/
theorem analyze_image_missing_file (fs : FileSystem) (oracle : GenRequest → String)
    (image_path : String) (h : fs.pathExists image_path = false) :
    analyze_image fs oracle image_path =
      (Except.error (PyError.fileNotFoundError ("Image not found at " ++ image_path)),
       []) := by
  unfold analyze_image
  rw [h, if_pos rfl]

/-- Witness for C9 on a concrete empty file system. -/
theorem analyze_image_missing_file_witness :
    analyze_image { pathExists := fun _ => false, readBytes := fun _ => [] }
      (fun _ => "") "test_satellite.jpg" =
      (Except.error
        (PyError.fileNotFoundError "Image not found at test_satellite.jpg"), []) :=
  analyze_image_missing_file
    { pathExists := fun _ => false, readBytes := fun _ => [] }
    (fun _ => "") "test_satellite.jpg" rfl

/-- C5: every `generate_content` call recorded by either entry point
(`analyze_from_uri` on a remote URI, or `analyze_image` on local bytes)
carries the fixed system instruction verbatim as its first content element,
the JSON response mime type, and exactly
`SatelliteAnalysis.model_json_schema()` as the response schema. -/
theorem generate_call_fixed_instruction_and_schema
    (oracle : GenRequest → String) (fs : FileSystem)
    (uri mime_type image_path : String) (req : GenRequest)
    (h : AgentEvent.generateCall req ∈ (analyze_from_uri oracle uri mime_type).2 ∨
         AgentEvent.generateCall req ∈ (analyze_image fs oracle image_path).2) :
    req.contents.head? = some (GenContent.text system_instruction) ∧
    req.response_mime_type = "application/json" ∧
    req.response_schema = satelliteAnalysisJsonSchema := by
  have hreq : req = generateRequest (GenPart.from_uri uri mime_type) ∨
      req = generateRequest (GenPart.from_data (fs.readBytes image_path) "image/jpeg") := by
    rcases h with h | h
    · left
      simp only [analyze_from_uri, List.mem_singleton] at h
      injection h
    · right
      unfold analyze_image at h
      rcases hex : fs.pathExists image_path with _ | _
      · rw [hex, if_pos rfl] at h
        exact absurd h (List.not_mem_nil _)
      · rw [hex, if_neg (by decide)] at h
        rcases List.mem_cons.mp h with h | h
        · exact absurd h (by intro hc; injection hc)
        · have h2 := List.mem_singleton.mp h
          injection h2
  rcases hreq with rfl | rfl <;> exact ⟨rfl, rfl, rfl⟩

/-- Witness for C5: the request of a concrete `analyze_from_uri` call. -/
theorem generate_call_fixed_instruction_and_schema_witness :
    (generateRequest (GenPart.from_uri "gs://bucket/img.jpg" "image/jpeg")).contents.head? =
      some (GenContent.text system_instruction) ∧
    (generateRequest (GenPart.from_uri "gs://bucket/img.jpg" "image/jpeg")).response_mime_type =
      "application/json" ∧
    (generateRequest (GenPart.from_uri "gs://bucket/img.jpg" "image/jpeg")).response_schema =
      satelliteAnalysisJsonSchema :=
  generate_call_fixed_instruction_and_schema (fun _ => "")
    { pathExists := fun _ => true, readBytes := fun _ => [] }
    "gs://bucket/img.jpg" "image/jpeg" "unused.jpg"
    (generateRequest (GenPart.from_uri "gs://bucket/img.jpg" "image/jpeg"))
    (Or.inl (List.mem_singleton.mpr rfl))

/-- When every per-file outcome from index `start` on succeeds, the loop
returns one entry per file, in submission order, each built from its own
file's filename, uuid draw, and analysis. -/
theorem uploadLoop_ok (world : Nat → FileOutcome) (uuids : Nat → String) :
    ∀ (fs : List UploadedFile) (start : Nat),
      (∀ i, i < fs.length → ∃ j, world (start + i) = FileOutcome.ok j) →
      ∃ rs, uploadLoop world uuids start fs = Except.ok rs ∧
        rs.length = fs.length ∧
        ∀ i, i < fs.length →
          ∃ j, world (start + i) = FileOutcome.ok j ∧
            rs.getD i default =
              { image_url :=
                  public_url ("uploads/" ++ uuids (start + i) ++ "-" ++
                    (fs.getD i default).filename),
                analysis := j } := by
  intro fs
  induction fs with
  | nil =>
    intro start _
    exact ⟨[], rfl, rfl, fun i hi => absurd hi (by simp)⟩
  | cons file rest ih =>
    intro start hok
    obtain ⟨j0, hj0⟩ := hok 0 (by simp)
    rw [Nat.add_zero] at hj0
    obtain ⟨rs', hloop, hlen, hidx⟩ := ih (start + 1) (fun i hi => by
      have := hok (i + 1) (by simpa using Nat.succ_lt_succ hi)
      rwa [show start + (i + 1) = start + 1 + i by omega] at this)
    refine ⟨{ image_url :=
                public_url ("uploads/" ++ uuids start ++ "-" ++ file.filename),
              analysis := j0 } :: rs', ?_, by simpa using hlen, ?_⟩
    · unfold uploadLoop
      rw [hj0, hloop]
    · intro i hi
      cases i with
      | zero =>
        exact ⟨j0, by simpa using hj0, by simp⟩
      | succ i' =>
        have hi' : i' < rest.length := by simpa using Nat.lt_of_succ_lt_succ hi
        obtain ⟨j, hw, hr⟩ := hidx i' hi'
        refine ⟨j, ?_, ?_⟩
        · rwa [show start + (i' + 1) = start + 1 + i' by omega]
        · rw [show start + (i' + 1) = start + 1 + i' by omega]
          simpa using hr

/-- When the outcomes before `k` succeed and the `k`-th fails, the loop
raises that failure: the collected entries are discarded and later files are
never processed. -/
theorem uploadLoop_fail (world : Nat → FileOutcome) (uuids : Nat → String) :
    ∀ (fs : List UploadedFile) (start k : Nat) (msg : String),
      k < fs.length →
      world (start + k) = FileOutcome.fails msg →
      (∀ i, i < k → ∃ j, world (start + i) = FileOutcome.ok j) →
      uploadLoop world uuids start fs = Except.error msg := by
  intro fs
  induction fs with
  | nil =>
    intro start k msg hk _ _
    exact absurd hk (by simp)
  | cons file rest ih =>
    intro start k msg hk hfail hbefore
    cases k with
    | zero =>
      rw [Nat.add_zero] at hfail
      unfold uploadLoop
      rw [hfail]
    | succ k' =>
      obtain ⟨j0, hj0⟩ := hbefore 0 (Nat.succ_pos k')
      rw [Nat.add_zero] at hj0
      have hrec : uploadLoop world uuids (start + 1) rest = Except.error msg := by
        refine ih (start + 1) k' msg (by simpa using Nat.lt_of_succ_lt_succ hk) ?_ ?_
        · rwa [show start + 1 + k' = start + (k' + 1) by omega]
        · intro i hi
          have := hbefore (i + 1) (Nat.succ_lt_succ hi)
          rwa [show start + (i + 1) = start + 1 + i by omega] at this
      unfold uploadLoop
      rw [hj0, hrec]

/-- C1: for a request with N files (N at least 1, first filename non-empty)
in which every storage write and downstream call succeeds, the upload handler
renders exactly N result entries, and the entry at position i is built from
the file submitted at position i (its uuid draw, its filename, its analysis),
so the rendered order equals submission order. -/
theorem upload_one_entry_per_file_in_order
    (world : Nat → FileOutcome) (uuids : Nat → String)
    (files : List UploadedFile)
    (hne : files ≠ [])
    (hfirst : (files.headD default).filename ≠ "")
    (hok : ∀ i, i < files.length → ∃ j, world i = FileOutcome.ok j) :
    ∃ rs, upload world uuids files = UploadResponse.html rs ∧
      rs.length = files.length ∧
      ∀ i, i < files.length →
        ∃ j, world i = FileOutcome.ok j ∧
          rs.getD i default =
            { image_url :=
                public_url ("uploads/" ++ uuids i ++ "-" ++
                  (files.getD i default).filename),
              analysis := j } := by
  obtain ⟨rs, hloop, hlen, hidx⟩ := uploadLoop_ok world uuids files 0 (fun i hi => by
    simpa using hok i hi)
  refine ⟨rs, ?_, hlen, fun i hi => by simpa using hidx i hi⟩
  cases files with
  | nil => exact absurd rfl hne
  | cons file0 rest =>
    simp only [upload]
    rw [if_neg (by simpa using hfirst), hloop]

/-- Two concrete files used as witness input for the upload claims. -/
def demoFiles : List UploadedFile :=
  [{ filename := "a.jpg", stream := [1], content_type := "image/jpeg" },
   { filename := "b.jpg", stream := [2], content_type := "image/jpeg" }]

/-- Witness for C1: two concrete files, all calls succeeding, two entries. -/
theorem upload_one_entry_per_file_in_order_witness :
    ∃ rs, upload (fun _ => FileOutcome.ok Json.jnull) (fun _ => "u") demoFiles =
        UploadResponse.html rs ∧ rs.length = 2 := by
  obtain ⟨rs, h1, h2, _⟩ :=
    upload_one_entry_per_file_in_order (fun _ => FileOutcome.ok Json.jnull)
      (fun _ => "u") demoFiles (by decide) (by decide)
      (fun i _ => ⟨Json.jnull, rfl⟩)
  exact ⟨rs, h1, h2.trans rfl⟩

/-- C6: files are processed sequentially, and the first failing storage write
or downstream call aborts the request: the handler answers with the 500 page
carrying that failure and renders no result entry at all (in particular none
for any file after the failing one); moreover the response is identical under
any world that agrees up to the failing file, so the outcomes of the
remaining files are never consulted. -/
theorem upload_first_failure_aborts
    (world world2 : Nat → FileOutcome) (uuids : Nat → String)
    (files : List UploadedFile) (k : Nat) (msg : String)
    (hfirst : (files.headD default).filename ≠ "")
    (hk : k < files.length)
    (hfail : world k = FileOutcome.fails msg)
    (hbefore : ∀ i, i < k → ∃ j, world i = FileOutcome.ok j)
    (hagree : ∀ i, i ≤ k → world2 i = world i) :
    upload world uuids files = UploadResponse.internalError msg ∧
    upload world2 uuids files = UploadResponse.internalError msg := by
  have hloop : uploadLoop world uuids 0 files = Except.error msg :=
    uploadLoop_fail world uuids files 0 k msg hk (by simpa using hfail)
      (fun i hi => by simpa using hbefore i hi)
  have hloop2 : uploadLoop world2 uuids 0 files = Except.error msg :=
    uploadLoop_fail world2 uuids files 0 k msg hk
      (by simpa using (hagree k (le_refl k)).trans hfail)
      (fun i hi => by
        obtain ⟨j, hj⟩ := hbefore i hi
        exact ⟨j, by simpa using (hagree i (le_of_lt hi)).trans hj⟩)
  cases files with
  | nil => exact absurd hk (by simp)
  | cons file0 rest =>
    constructor
    · simp only [upload]
      rw [if_neg (by simpa using hfirst), hloop]
    · simp only [upload]
      rw [if_neg (by simpa using hfirst), hloop2]

/-- Witness for C6: the second of three files fails; any outcome for the
third file gives the same 500 response with no entries. -/
theorem upload_first_failure_aborts_witness :
    upload
      (fun i => if i = 1 then FileOutcome.fails "storage down" else FileOutcome.ok Json.jnull)
      (fun _ => "u")
      (demoFiles ++ [{ filename := "c.jpg", stream := [3], content_type := "image/jpeg" }]) =
      UploadResponse.internalError "storage down" ∧
    upload
      (fun i => if i = 0 then FileOutcome.ok Json.jnull else FileOutcome.fails "storage down")
      (fun _ => "u")
      (demoFiles ++ [{ filename := "c.jpg", stream := [3], content_type := "image/jpeg" }]) =
      UploadResponse.internalError "storage down" :=
  upload_first_failure_aborts
    (fun i => if i = 1 then FileOutcome.fails "storage down" else FileOutcome.ok Json.jnull)
    (fun i => if i = 0 then FileOutcome.ok Json.jnull else FileOutcome.fails "storage down")
    (fun _ => "u")
    (demoFiles ++ [{ filename := "c.jpg", stream := [3], content_type := "image/jpeg" }])
    1 "storage down" (by decide) (by decide) rfl
    (fun i hi => ⟨Json.jnull, by interval_cases i; rfl⟩)
    (fun i hi => by interval_cases i <;> rfl)

/-- C4: a request whose file list is empty, or in which no file was selected
(every filename empty), is answered by the plain 400 bad-request response and
never by a server error. -/
theorem upload_no_files_client_error
    (world : Nat → FileOutcome) (uuids : Nat → String)
    (files : List UploadedFile)
    (h : files = [] ∨ ∀ f ∈ files, f.filename = "") :
    upload world uuids files = UploadResponse.clientError "No files selected" 400 ∧
    ∀ m, upload world uuids files ≠ UploadResponse.internalError m := by
  have heq : upload world uuids files = UploadResponse.clientError "No files selected" 400 := by
    cases files with
    | nil => rfl
    | cons file0 rest =>
      rcases h with h | h
      · exact absurd h (by simp)
      · have h0 : file0.filename = "" := h file0 (List.mem_cons_self file0 rest)
        simp only [upload]
        rw [if_pos h0]
  exact ⟨heq, fun m hcontra => by rw [heq] at hcontra; injection hcontra⟩

/-- Witness for C4: one unselected file (empty filename). -/
theorem upload_no_files_client_error_witness :
    upload (fun _ => FileOutcome.ok Json.jnull) (fun _ => "u")
      [{ filename := "", stream := [], content_type := "application/octet-stream" }] =
      UploadResponse.clientError "No files selected" 400 :=
  (upload_no_files_client_error (fun _ => FileOutcome.ok Json.jnull) (fun _ => "u")
    [{ filename := "", stream := [], content_type := "application/octet-stream" }]
    (Or.inr (by decide))).1

/-- C10: the missing-input rejection looks only at the first file: a request
whose first filename is empty is rejected with the 400 response whatever the
later files are, and a request whose first filename is non-empty is never
answered by that bad-request response, even when a later filename is empty. -/
theorem upload_rejection_checks_only_first_file
    (world : Nat → FileOutcome) (uuids : Nat → String)
    (file0 : UploadedFile) (rest : List UploadedFile) :
    (file0.filename = "" →
      upload world uuids (file0 :: rest) =
        UploadResponse.clientError "No files selected" 400) ∧
    (file0.filename ≠ "" →
      ∀ b n, upload world uuids (file0 :: rest) ≠ UploadResponse.clientError b n) := by
  constructor
  · intro h0
    simp only [upload]
    rw [if_pos h0]
  · intro h0 b n hcontra
    simp only [upload] at hcontra
    rw [if_neg h0] at hcontra
    rcases hres : uploadLoop world uuids 0 (file0 :: rest) with msg | results
    · rw [hres] at hcontra
      injection hcontra
    · rw [hres] at hcontra
      injection hcontra

/-- Witness for C10: an empty first filename is rejected although the second
file is valid, and a valid first filename is not rejected although the second
filename is empty. -/
theorem upload_rejection_checks_only_first_file_witness :
    upload (fun _ => FileOutcome.ok Json.jnull) (fun _ => "u")
      ({ filename := "", stream := [], content_type := "t" } ::
       [{ filename := "b.jpg", stream := [2], content_type := "t" }]) =
      UploadResponse.clientError "No files selected" 400 ∧
    upload (fun _ => FileOutcome.ok Json.jnull) (fun _ => "u")
      ({ filename := "a.jpg", stream := [1], content_type := "t" } ::
       [{ filename := "", stream := [], content_type := "t" }]) ≠
      UploadResponse.clientError "No files selected" 400 :=
  ⟨(upload_rejection_checks_only_first_file (fun _ => FileOutcome.ok Json.jnull)
      (fun _ => "u") { filename := "", stream := [], content_type := "t" }
      [{ filename := "b.jpg", stream := [2], content_type := "t" }]).1 rfl,
   (upload_rejection_checks_only_first_file (fun _ => FileOutcome.ok Json.jnull)
      (fun _ => "u") { filename := "a.jpg", stream := [1], content_type := "t" }
      [{ filename := "", stream := [], content_type := "t" }]).2 (by decide)
      "No files selected" 400⟩

/-- C3: every request to `/analyze` either yields a validated analysis as
JSON or a 500 error; an exception during model invocation or parsing becomes
a 500 carrying the raw error text (`str(e)`); and every success body carries
all four assessment keys, so no partially-filled result is ever returned. -/
theorem analyze_endpoint_json_or_500 :
    (∀ o, (∃ a, analyze_endpoint o = EndpointResponse.success a) ∨
          (∃ m, analyze_endpoint o = EndpointResponse.httpError 500 m)) ∧
    (∀ m, analyze_endpoint (AgentOutcome.raises m) =
      EndpointResponse.httpError 500 m) ∧
    (∀ o a, analyze_endpoint o = EndpointResponse.success a →
      (responseBody (analyze_endpoint o)).keys =
        ["has_clouds", "has_snow", "has_color_issues", "has_other_issues"]) := by
  refine ⟨?_, fun m => rfl, ?_⟩
  · intro o
    cases o with
    | raises msg => exact Or.inr ⟨msg, rfl⟩
    | returnsText p =>
      cases p with
      | error msg => exact Or.inr ⟨msg, rfl⟩
      | ok j =>
        rcases hp : parseSatelliteAnalysis j with _ | a
        · exact Or.inr ⟨"ResponseValidationError", by simp only [analyze_endpoint, hp]⟩
        · exact Or.inl ⟨a, by simp only [analyze_endpoint, hp]⟩
  · intro o a h
    rw [h]
    rfl

/-- Witness for C3: a concrete raising call gets its raw text back with 500,
and a concrete successful call has all four keys. -/
theorem analyze_endpoint_json_or_500_witness :
    analyze_endpoint (AgentOutcome.raises "connection reset") =
      EndpointResponse.httpError 500 "connection reset" ∧
    (responseBody (analyze_endpoint (AgentOutcome.returnsText
        (Except.ok (dumpSatelliteAnalysis sampleAnalysis))))).keys =
      ["has_clouds", "has_snow", "has_color_issues", "has_other_issues"] :=
  ⟨analyze_endpoint_json_or_500.2.1 "connection reset",
   analyze_endpoint_json_or_500.2.2
     (AgentOutcome.returnsText (Except.ok (dumpSatelliteAnalysis sampleAnalysis)))
     sampleAnalysis (by simp only [analyze_endpoint, parse_dump_roundtrip])⟩

/-- An assessment with out-of-range confidence and empty rationale. -/
def overconfidentAssessment : IssueAssessment :=
  { detected := true, confidence := 2, reason := "" }

/-- An analysis made of out-of-range assessments. -/
def overconfidentAnalysis : SatelliteAnalysis :=
  { has_clouds := overconfidentAssessment, has_snow := overconfidentAssessment,
    has_color_issues := overconfidentAssessment,
    has_other_issues := overconfidentAssessment }

/-- The JSON text of such a model reply, parsed. -/
def overconfidentJson : Json := dumpSatelliteAnalysis overconfidentAnalysis

/-- C2 counterexample: a model reply whose confidence values are 2.0 and
whose rationales are empty passes the local validation and is returned as a
success — the confidence range is NOT checked locally, nor is the rationale
required to be non-empty. -/
theorem analyze_endpoint_no_range_check_counterexample :
    analyze_endpoint (AgentOutcome.returnsText (Except.ok overconfidentJson)) =
      EndpointResponse.success overconfidentAnalysis ∧
    1 < overconfidentAnalysis.has_clouds.confidence ∧
    overconfidentAnalysis.has_clouds.reason = "" := by
  refine ⟨rfl, ?_, rfl⟩
  show (1 : ℚ) < 2
  norm_num

/-- C2 amended: on success the response body contains exactly the four fixed
assessment keys, each an object with a boolean `detected`, a numeric
`confidence` and a string `reason`; only this type structure is validated
locally — in particular a success can carry a confidence outside [0, 1] and
an empty rationale. -/
theorem analyze_endpoint_success_typed_shape :
    (∀ o a, analyze_endpoint o = EndpointResponse.success a →
      ∃ fields, responseBody (analyze_endpoint o) = Json.jobj fields ∧
        fields.map Prod.fst =
          ["has_clouds", "has_snow", "has_color_issues", "has_other_issues"] ∧
        ∀ p ∈ fields, ∃ b c r, p.2 =
          Json.jobj [("detected", Json.jbool b), ("confidence", Json.jnum c),
                     ("reason", Json.jstr r)]) ∧
    (∃ o a, analyze_endpoint o = EndpointResponse.success a ∧
      1 < a.has_clouds.confidence ∧ a.has_clouds.reason = "") := by
  constructor
  · intro o a h
    rw [h]
    refine ⟨_, rfl, rfl, ?_⟩
    intro p hp
    simp only [List.mem_cons, List.not_mem_nil, or_false] at hp
    rcases hp with rfl | rfl | rfl | rfl
    · exact ⟨a.has_clouds.detected, a.has_clouds.confidence, a.has_clouds.reason, rfl⟩
    · exact ⟨a.has_snow.detected, a.has_snow.confidence, a.has_snow.reason, rfl⟩
    · exact ⟨a.has_color_issues.detected, a.has_color_issues.confidence,
             a.has_color_issues.reason, rfl⟩
    · exact ⟨a.has_other_issues.detected, a.has_other_issues.confidence,
             a.has_other_issues.reason, rfl⟩
  · exact ⟨AgentOutcome.returnsText (Except.ok overconfidentJson),
           overconfidentAnalysis, rfl, by show (1 : ℚ) < 2; norm_num, rfl⟩

/-- Witness for C2 (amended) at a concrete successful response. -/
theorem analyze_endpoint_success_typed_shape_witness :
    ∃ fields,
      responseBody (analyze_endpoint (AgentOutcome.returnsText
        (Except.ok (dumpSatelliteAnalysis sampleAnalysis)))) = Json.jobj fields ∧
      fields.map Prod.fst =
        ["has_clouds", "has_snow", "has_color_issues", "has_other_issues"] ∧
      ∀ p ∈ fields, ∃ b c r, p.2 =
        Json.jobj [("detected", Json.jbool b), ("confidence", Json.jnum c),
                   ("reason", Json.jstr r)] :=
  analyze_endpoint_success_typed_shape.1
    (AgentOutcome.returnsText (Except.ok (dumpSatelliteAnalysis sampleAnalysis)))
    sampleAnalysis
    (by simp only [analyze_endpoint, parse_dump_roundtrip])

/-- C7 amended: a fixture whose objects carry exactly the schema's fields in
declaration order (the four categories, each exactly detected, confidence,
reason) deserializes and re-serializes to the identical value, with no repair
logic involved. -/
theorem fixture_roundtrip_canonical (j : Json)
    (h : ∃ a : SatelliteAnalysis, j = dumpSatelliteAnalysis a) :
    Option.map dumpSatelliteAnalysis (parseSatelliteAnalysis j) = some j := by
  obtain ⟨a, rfl⟩ := h
  rw [parse_dump_roundtrip]
  rfl

/-- Witness for C7 (amended) at a concrete canonical fixture. -/
theorem fixture_roundtrip_canonical_witness :
    Option.map dumpSatelliteAnalysis
      (parseSatelliteAnalysis (dumpSatelliteAnalysis sampleAnalysis)) =
      some (dumpSatelliteAnalysis sampleAnalysis) :=
  fixture_roundtrip_canonical (dumpSatelliteAnalysis sampleAnalysis)
    ⟨sampleAnalysis, rfl⟩

/-- A fixture in which all four categories are present and well-typed but one
extra top-level key is also present. -/
def extraKeyFixture : Json :=
  Json.jobj [("has_clouds", dumpIssueAssessment sampleAssessment),
             ("has_snow", dumpIssueAssessment sampleAssessment),
             ("has_color_issues", dumpIssueAssessment sampleAssessment),
             ("has_other_issues", dumpIssueAssessment sampleAssessment),
             ("provider_metadata", Json.jstr "extra")]

/-- C7 counterexample: the extra-key fixture has all four categories present
with a boolean, a number and a string, and it parses successfully, but
re-serializing the parsed value drops the extra key, so the round trip does
not return the same value. -/
theorem fixture_roundtrip_counterexample :
    (parseSatelliteAnalysis extraKeyFixture).isSome = true ∧
    Option.map dumpSatelliteAnalysis (parseSatelliteAnalysis extraKeyFixture) ≠
      some extraKeyFixture := by
  refine ⟨rfl, fun hcontra => ?_⟩
  have h2 : dumpSatelliteAnalysis sampleAnalysis = extraKeyFixture :=
    Option.some.inj hcontra
  have h3 := congrArg Json.keys h2
  revert h3
  decide
